import Mathlib

/-!
Verification of the `hotrunner` test-runner customization layer.

The development shallowly embeds `src/hotrunner.py`:

* `HotRunner.run_tests` (suite selection from the Django settings) becomes a
  pure function from the settings and the explicit label list to the label
  list handed to the superclass runner.
* `HotRunnerTestResult` (the reporting result sink) becomes a family of
  functions on an explicit `ResultState`; the observable behaviour of a
  lifecycle callback — file opens, file writes and delegations to the
  underlying `TextTestResult` protocol — is returned as a list of `Effect`s,
  and a Python `AttributeError` (reading a never-assigned attribute) is an
  `Except.error`.

Wall-clock time (`time.time()`) is passed in explicitly as an integer `now`;
Python string formatting of the relevant values is modelled by explicit
string concatenation.
-/

set_option autoImplicit false

/-- Python `x.startswith(p)`. -/
def startswith (x p : String) : Bool := List.isPrefixOf p.data x.data

/-- Split a character list at every character satisfying `p`, keeping empty
segments, exactly as Python `str.split(sep)` does for a one-character
separator (generalised to a predicate).  On `[]` it returns `[[]]`, matching
`''.split('.') == ['']`. -/
def splitOnPred (p : Char → Bool) : List Char → List (List Char)
  | [] => [[]]
  | x :: xs =>
    let r := splitOnPred p xs
    if p x then [] :: r
    else
      match r with
      | [] => [[x]]
      | y :: ys => (x :: y) :: ys

/-- Python `x.split('.')`. -/
def splitDot (x : String) : List String :=
  (splitOnPred (fun c => c = '.') x.data).map (fun cs => String.mk cs)

/-- Python `x.split('.')[-1]`: the leaf identifier of a dotted name.
`str.split` always returns a non-empty list, so the default is never used. -/
def leaf (x : String) : String := (splitDot x).getLastD ""

/-- Python truthiness of an optional string value: `None` and `''` are falsy.
`none` models a setting that is absent (or set to `None`, which
`getattr(..., None)` cannot distinguish from absent). -/
def truthy : Option String → Bool
  | none => false
  | some s => s != ""

/-- Python `a or b` on two optional string values: yields `a` when `a` is
truthy and `b` otherwise. -/
def pyOr (a b : Option String) : Option String := if truthy a then a else b

/-- The Django settings object, restricted to the attributes `hotrunner.py`
reads.  `EXCLUDED_TEST_APPS` defaults to `[]` and `TEST_ALL_APPS` to falsy
when absent, so those two are modelled by their defaulted values; the two
filename settings default to `None`, modelled by `Option String`. -/
structure Settings where
  EXCLUDED_TEST_APPS : List String
  TEST_ALL_APPS : Bool
  INSTALLED_APPS : List String
  HOTRUNNER_XUNIT_FILENAME : Option String
  JUXD_FILENAME : Option String
deriving Repr, DecidableEq

namespace HotRunner

/-- Embedding of `HotRunner.run_tests` (src/hotrunner.py lines 29-44): the
value returned is the `test_labels` list that the method passes on to
`super().run_tests`.  An empty explicit list is falsy in Python, triggering
the selection logic; a non-empty list is passed through. -/
def run_tests (s : Settings) (test_labels : List String) : List String :=
  if test_labels.isEmpty then
    let excluded_apps := s.EXCLUDED_TEST_APPS
    let excluded_apps := if s.TEST_ALL_APPS then [] else excluded_apps
    (s.INSTALLED_APPS.filter
      (fun x => !(excluded_apps.contains x) && !(startswith x "django.contrib."))).map leaf
  else
    test_labels

end HotRunner

/-- A test case object, restricted to the attributes `hotrunner.py` reads.
`strRepr` is Python `str(test)` and `moduleName`/`className` are
`test.__module__` and `test.__class__.__name__`; `shortDescription` is the
return value of `test.shortDescription()` (`none` models `None`). -/
structure Test where
  moduleName : String
  className : String
  methodName : String
  strRepr : String
  shortDescription : Option String
deriving Repr, DecidableEq

/-- A Python `sys.exc_info()` triple as consumed by `_add_tb_to_test`,
together with the string `self._exc_info_to_string(err, test)` produces for
it (that method is inherited framework code, so its output is carried as
the field `tbString`). `excValueStr` is `str(exc_value)`. -/
structure ExcInfo where
  excModule : String
  excName : String
  excValueStr : String
  tbString : String
deriving Repr, DecidableEq

/-- The one runtime error the embedded callbacks can raise: reading an
instance attribute that was never assigned. -/
inductive PyErr
  | attributeError
deriving Repr, DecidableEq

/-- A delegation to the underlying `TextTestResult` protocol, with the
arguments the `super()` call receives. -/
inductive SuperCall
  | startTest (test : Test)
  | addSuccess (test : Test)
  | addFailure (test : Test) (err : ExcInfo)
  | addError (test : Test) (err : ExcInfo)
  | addSkip (test : Test) (reason : String)
  | addExpectedFailure (test : Test) (err : ExcInfo)
  | addUnexpectedSuccess (test : Test)
  | startTestRun
  | stopTestRun
deriving Repr, DecidableEq

/-- An observable side effect of a lifecycle callback: a file opened for
truncating write (`open(path, 'w')`), a file opened for append
(`open(path, 'a')`), a string written to an open file, or a delegation to
the underlying protocol. -/
inductive Effect
  | openWrite (path : String)
  | openAppend (path : String)
  | write (path : String) (content : String)
  | callSuper (c : SuperCall)
deriving Repr, DecidableEq

/-- The state of a `HotRunnerTestResult` instance.  `descriptions` and the
aggregate fields `errors`/`failures`/`skipped`/`testsRun` belong to the
inherited `TextTestResult` (the aggregates are maintained by the framework
superclass; the elements of the three lists are carried as the Python
`repr` strings of the stored `(test, traceback)` pairs).  The three
`Option Int` timestamps model instance attributes that may not have been
assigned yet (`none` = never assigned, so reading raises
`AttributeError`). -/
structure ResultState where
  settings : Settings
  descriptions : Bool
  case_start_time : Option Int
  case_time_taken : Option Int
  run_start_time : Option Int
  errors : List String
  failures : List String
  skipped : List String
  testsRun : Nat
deriving Repr, DecidableEq

/-- Python `str(xs)` for a list whose elements are carried as their own
`repr` strings: `repr` of each element joined by `', '` inside brackets. -/
def pyListRepr (xs : List String) : String :=
  "[" ++ String.intercalate ", " xs ++ "]"

/-- A word character of the regular expression `[\w_]+` (ASCII range). -/
def isWordChar (c : Char) : Bool := c.isAlphanum || c = '_'

/-- Python `re.findall('[\w_]+', s)`: the maximal runs of word characters
of `s`, in order. -/
def findall_word (s : String) : List String :=
  ((splitOnPred (fun c => !(isWordChar c)) s.data).filter
    (fun t => !(t.isEmpty))).map (fun cs => String.mk cs)

namespace HotRunnerTestResult

/-- Embedding of the `xunit_filename` property (src/hotrunner.py lines
64-68): `getattr(settings, 'HOTRUNNER_XUNIT_FILENAME', None) or
getattr(settings, 'JUXD_FILENAME', None)`. -/
def xunit_filename (st : ResultState) : Option String :=
  let hxf := st.settings.HOTRUNNER_XUNIT_FILENAME
  let juxf := st.settings.JUXD_FILENAME
  pyOr hxf juxf

/-- Embedding of `getDescription` (src/hotrunner.py lines 55-62).  The
fallback branch indexes the token list at `1`, `-1` and `0`; `none` models
the `IndexError` Python raises when an index is out of range. -/
def getDescription (st : ResultState) (test : Test) : Option String :=
  let doc_first_line := test.shortDescription
  if st.descriptions && truthy doc_first_line then
    some (test.strRepr ++ "\n" ++ doc_first_line.getD "")
  else
    let toks := findall_word test.strRepr
    match toks.get? 1, toks.getLast?, toks.get? 0 with
    | some app, some suite, some testname =>
        some (testname ++ " (" ++ app ++ "." ++ suite ++ "." ++ testname ++ ")")
    | _, _, _ => none

/-- Formalisation of claim C8's description of the fallback branch,
following the claim's words rather than the code: the app/suite context
comes from the FIRST and last extracted tokens and the test name is the
first extracted token.  Kept separate from `getDescription` (the embedding
of the code) so the two can be compared. -/
def getDescriptionClaim (st : ResultState) (test : Test) : Option String :=
  let doc_first_line := test.shortDescription
  if st.descriptions && truthy doc_first_line then
    some (test.strRepr ++ "\n" ++ doc_first_line.getD "")
  else
    let toks := findall_word test.strRepr
    match toks.get? 0, toks.getLast? with
    | some first, some last =>
        some (first ++ " (" ++ first ++ "." ++ last ++ "." ++ first ++ ")")
    | _, _ => none

/-- Embedding of `_make_testcase_element` (src/hotrunner.py lines 152-166):
the effects it performs.  It reads `self.case_time_taken`, raising
`AttributeError` when that attribute was never assigned (in the code this
would happen after the first two writes; every caller assigns the
attribute first, so the error branch is unreachable from the callbacks). -/
def make_testcase_element (st : ResultState) (test : Test) :
    Except PyErr (List Effect) :=
  let classname := String.intercalate "." (splitDot (test.moduleName ++ "." ++ test.className))
  match xunit_filename st with
  | none => .ok []
  | some fn =>
    if fn = "" then .ok []
    else
      match st.case_time_taken with
      | none => .error .attributeError
      | some tt =>
        .ok [.openAppend fn, .write fn "<div>",
             .write fn "<font color=\"green\">",
             .write fn ("time - " ++ toString tt ++ "; "),
             .write fn ("classname - " ++ classname ++ "; "),
             .write fn ("name - " ++ test.methodName ++ "; "),
             .write fn "</font>", .write fn "</div>"]

/-- Embedding of `_add_tb_to_test` (src/hotrunner.py lines 168-181): the
effects it performs. -/
def add_tb_to_test (st : ResultState) (_test : Test) (err : ExcInfo) :
    List Effect :=
  let tb_str := err.tbString
  match xunit_filename st with
  | none => []
  | some fn =>
    if fn = "" then []
    else
      [.openAppend fn, .write fn "<font color=\"red\">",
       .write fn ("<p>message - " ++ err.excValueStr ++ "</p>"),
       .write fn ("<p>type - " ++ err.excModule ++ " " ++ err.excName ++ "</p>"),
       .write fn ("<p>text - " ++ tb_str ++ "</p>"),
       .write fn "</font>"]

/-- Embedding of `startTest` (src/hotrunner.py lines 70-72). -/
def startTest (st : ResultState) (now : Int) (test : Test) :
    Except PyErr (ResultState × List Effect) :=
  .ok ({ st with case_start_time := some now },
       [.callSuper (.startTest test)])

/-- Embedding of `addSuccess` (src/hotrunner.py lines 74-78). -/
def addSuccess (st : ResultState) (now : Int) (test : Test) :
    Except PyErr (ResultState × List Effect) :=
  match st.case_start_time with
  | none => .error .attributeError
  | some start =>
    let st1 := { st with case_time_taken := some (now - start) }
    match (if truthy (xunit_filename st1) then make_testcase_element st1 test
           else .ok []) with
    | .error e => .error e
    | .ok fx => .ok (st1, fx ++ [.callSuper (.addSuccess test)])

/-- Embedding of `addFailure` (src/hotrunner.py lines 80-86). -/
def addFailure (st : ResultState) (now : Int) (test : Test) (err : ExcInfo) :
    Except PyErr (ResultState × List Effect) :=
  match st.case_start_time with
  | none => .error .attributeError
  | some start =>
    let st1 := { st with case_time_taken := some (now - start) }
    match (if truthy (xunit_filename st1) then
             (make_testcase_element st1 test).map
               (fun a => a ++ add_tb_to_test st1 test err)
           else .ok []) with
    | .error e => .error e
    | .ok fx => .ok (st1, fx ++ [.callSuper (.addFailure test err)])

/-- Embedding of `addError` (src/hotrunner.py lines 88-94). -/
def addError (st : ResultState) (now : Int) (test : Test) (err : ExcInfo) :
    Except PyErr (ResultState × List Effect) :=
  match st.case_start_time with
  | none => .error .attributeError
  | some start =>
    let st1 := { st with case_time_taken := some (now - start) }
    match (if truthy (xunit_filename st1) then
             (make_testcase_element st1 test).map
               (fun a => a ++ add_tb_to_test st1 test err)
           else .ok []) with
    | .error e => .error e
    | .ok fx => .ok (st1, fx ++ [.callSuper (.addError test err)])

/-- Embedding of `addUnexpectedSuccess` (src/hotrunner.py lines 96-100). -/
def addUnexpectedSuccess (st : ResultState) (now : Int) (test : Test) :
    Except PyErr (ResultState × List Effect) :=
  match st.case_start_time with
  | none => .error .attributeError
  | some start =>
    let st1 := { st with case_time_taken := some (now - start) }
    match (if truthy (xunit_filename st1) then make_testcase_element st1 test
           else .ok []) with
    | .error e => .error e
    | .ok fx => .ok (st1, fx ++ [.callSuper (.addUnexpectedSuccess test)])

/-- Embedding of `addSkip` (src/hotrunner.py lines 102-106). -/
def addSkip (st : ResultState) (now : Int) (test : Test) (reason : String) :
    Except PyErr (ResultState × List Effect) :=
  match st.case_start_time with
  | none => .error .attributeError
  | some start =>
    let st1 := { st with case_time_taken := some (now - start) }
    match (if truthy (xunit_filename st1) then make_testcase_element st1 test
           else .ok []) with
    | .error e => .error e
    | .ok fx => .ok (st1, fx ++ [.callSuper (.addSkip test reason)])

/-- Embedding of `addExpectedFailure` (src/hotrunner.py lines 108-114). -/
def addExpectedFailure (st : ResultState) (now : Int) (test : Test) (err : ExcInfo) :
    Except PyErr (ResultState × List Effect) :=
  match st.case_start_time with
  | none => .error .attributeError
  | some start =>
    let st1 := { st with case_time_taken := some (now - start) }
    match (if truthy (xunit_filename st1) then
             (make_testcase_element st1 test).map
               (fun a => a ++ add_tb_to_test st1 test err)
           else .ok []) with
    | .error e => .error e
    | .ok fx => .ok (st1, fx ++ [.callSuper (.addExpectedFailure test err)])

/-- Embedding of `startTestRun` (src/hotrunner.py lines 116-122). -/
def startTestRun (st : ResultState) (now : Int) :
    Except PyErr (ResultState × List Effect) :=
  let fx :=
    match xunit_filename st with
    | none => []
    | some fn =>
      if fn = "" then []
      else [Effect.openWrite fn, Effect.write fn "<html>"]
  .ok ({ st with run_start_time := some now }, fx ++ [.callSuper .startTestRun])

/-- Embedding of `stopTestRun` (src/hotrunner.py lines 124-150).  The
summary lines interpolate `self.errors`, `self.failures` and `self.skipped`
— the aggregate LISTS maintained by the superclass — with `str.format`,
which renders their Python list `repr`; `self.testsRun` is an integer. -/
def stopTestRun (st : ResultState) (now : Int) :
    Except PyErr (ResultState × List Effect) :=
  match st.run_start_time with
  | none => .error .attributeError
  | some rstart =>
    let run_time_taken := now - rstart
    let fx1 :=
      match xunit_filename st with
      | none => []
      | some fn =>
        if fn = "" then []
        else
          [Effect.openAppend fn,
           Effect.write fn "<h1>Result:</h1>",
           Effect.write fn "<ul>",
           Effect.write fn "<li>name: Dispatch</li>",
           Effect.write fn ("<li>errors: " ++ pyListRepr st.errors ++ "</li>"),
           Effect.write fn ("<li>failures: " ++ pyListRepr st.failures ++ "</li>"),
           Effect.write fn ("<li>skips: " ++ pyListRepr st.skipped ++ "</li>"),
           Effect.write fn ("<li>tests: " ++ toString st.testsRun ++ "</li>"),
           Effect.write fn ("<li>time: " ++ toString run_time_taken ++ "</li>"),
           Effect.write fn "</ul>"]
    let fx2 :=
      match xunit_filename st with
      | none => []
      | some fn =>
        if fn = "" then []
        else [Effect.openAppend fn, Effect.write fn "</html>"]
    .ok (st, fx1 ++ fx2 ++ [.callSuper .stopTestRun])

end HotRunnerTestResult

/-- The delegations to the underlying protocol contained in an effect
list, in order. -/
def superCalls (fx : List Effect) : List SuperCall :=
  fx.filterMap (fun e => match e with | .callSuper c => some c | _ => none)

/-- The delegations performed by a callback invocation; a raised error
performs none (the code raises before reaching any `super()` call). -/
def superCallsOf (r : Except PyErr (ResultState × List Effect)) : List SuperCall :=
  match r with
  | .ok (_, fx) => superCalls fx
  | .error _ => []

/-- The file-system effects (opens and writes) contained in an effect
list, in order. -/
def fileEffects (fx : List Effect) : List Effect :=
  fx.filter (fun e => match e with | .callSuper _ => false | _ => true)

/-- The file-system effects performed by a callback invocation; a raised
error performs none (every callback raises, if at all, before its first
file operation). -/
def fileEffectsOf (r : Except PyErr (ResultState × List Effect)) : List Effect :=
  match r with
  | .ok (_, fx) => fileEffects fx
  | .error _ => []

/-- The strings written to files by a callback invocation, in order. -/
def writesOf (r : Except PyErr (ResultState × List Effect)) : List String :=
  match r with
  | .ok (_, fx) => fx.filterMap (fun e => match e with | .write _ s => some s | _ => none)
  | .error _ => []

/-- Settings used to refute C2: the installed app `proj.foo` has leaf name
`foo`, which is listed in `EXCLUDED_TEST_APPS`, yet the membership test in
the code compares the fully-qualified name `proj.foo` against the exclusion
list, so the app is selected anyway. -/
def c2Settings : Settings :=
  ⟨["foo"], false, ["proj.foo"], none, none⟩

/-- Settings with neither report-filename setting present. -/
def noReportSettings : Settings := ⟨[], false, [], none, none⟩

/-- Settings with a report destination configured through
`HOTRUNNER_XUNIT_FILENAME`. -/
def reportSettings : Settings := ⟨[], false, [], some "report.html", none⟩

/-- A result instance fresh out of the constructor: no test was ever
started, so none of the timestamp attributes exist, and no report path is
configured. -/
def idleState : ResultState :=
  ⟨noReportSettings, false, none, none, none, [], [], [], 0⟩

/-- A result with a report destination configured on which a test (and the
run) has been started at time 0. -/
def runningState : ResultState :=
  ⟨reportSettings, false, some 0, none, some 0, [], [], [], 0⟩

/-- A result with no report destination on which a test (and the run) has
been started at time 0. -/
def noReportRunningState : ResultState :=
  ⟨noReportSettings, false, some 0, none, some 0, [], [], [], 0⟩

/-- A sample test case. -/
def sampleTest : Test :=
  ⟨"app.tests", "CaseB", "test_one", "test_one (app.tests.CaseB)", none⟩

/-- A sample captured exception triple. -/
def sampleErr : ExcInfo :=
  ⟨"builtins", "AssertionError", "boom", "Traceback text"⟩

/-- Test case used to separate the code's fallback description from the
claim's reading of it: its four word tokens are pairwise distinct, so the
second token (used by the code as the app context) differs from the first
(used by the claim). -/
def c8Test : Test :=
  ⟨"alpha.suiteA", "CaseB", "test_one", "test_one (alpha.suiteA.CaseB)", none⟩

/-- A test whose string representation yields a single word token, so the
fallback description branch indexes outside the token list. -/
def c9Test : Test := ⟨"m", "C", "t", "x", none⟩

/-- Result state at run stop for a run with exactly one failing and one
passing test and a configured report path: the superclass has accumulated
one entry in `failures` (carried as its Python `repr` string), nothing in
`errors`/`skipped`, and `testsRun = 2`; the run started at time 0. -/
def c6State : ResultState :=
  ⟨reportSettings, false, some 3, some 1, some 0, [],
   ["(test_two (app.tests.CaseB), AssertionError traceback)"], [], 2⟩

/-- Settings whose first report-filename setting is present but empty (in
Python: falsy) while the second names a file. -/
def c7Settings : Settings := ⟨[], false, [], some "", some "fallback.html"⟩

/-- Result instance over `c7Settings`. -/
def c7State : ResultState :=
  ⟨c7Settings, false, none, none, none, [], [], [], 0⟩

/-- Result instance whose first report-filename setting is present and
non-empty. -/
def c7StateA : ResultState :=
  ⟨⟨[], false, [], some "a.html", some "fallback.html"⟩, false, none, none, none, [], [], [], 0⟩

/-- C1: a non-empty explicit target list is passed unchanged to the
underlying engine, for every settings configuration (any excluded-apps list
and any override flag). -/
theorem c1_explicit_labels_unchanged (s : Settings) (test_labels : List String)
    (h : test_labels ≠ []) :
    HotRunner.run_tests s test_labels = test_labels := by
  simp [HotRunner.run_tests, List.isEmpty_iff, h]

theorem c1_explicit_labels_unchanged_witness :
    (["alpha", "beta"] : List String) ≠ [] ∧
      HotRunner.run_tests
        ⟨["alpha"], false, ["alpha", "beta"], none, none⟩ ["alpha", "beta"] =
        ["alpha", "beta"] :=
  ⟨by decide, c1_explicit_labels_unchanged _ _ (by decide)⟩

/-- C2 counterexample: with an empty explicit list, override off and
exclusion set containing exactly the leaf name `foo` of the single installed
app `proj.foo`, the claim predicts `proj.foo` is excluded, but the effective
target list is `["foo"]` — the app's leaf appears in the result. -/
theorem c2_counterexample :
    leaf "proj.foo" ∈ c2Settings.EXCLUDED_TEST_APPS ∧
      c2Settings.TEST_ALL_APPS = false ∧
      HotRunner.run_tests c2Settings [] = ["foo"] ∧
      leaf "proj.foo" ∈ HotRunner.run_tests c2Settings [] := by
  refine ⟨?_, rfl, ?_, ?_⟩ <;> decide

/-- C2 amended: for an empty explicit list and override off, a label appears
in the effective target list exactly when it is the leaf identifier of some
configured application whose FULLY-QUALIFIED name is not in the exclusion
set and which is not `django.contrib.`-prefixed.  In particular every
configured application whose fully-qualified name is in the exclusion set
contributes nothing, and so does every framework-bundled application. -/
theorem c2_amended_fully_qualified_exclusion (s : Settings)
    (h : s.TEST_ALL_APPS = false) (t : String) :
    t ∈ HotRunner.run_tests s [] ↔
      ∃ x ∈ s.INSTALLED_APPS, x ∉ s.EXCLUDED_TEST_APPS ∧
        startswith x "django.contrib." = false ∧ leaf x = t := by
  simp [HotRunner.run_tests, h, List.mem_map, List.mem_filter, and_assoc]

theorem c2_amended_fully_qualified_exclusion_witness :
    c2Settings.TEST_ALL_APPS = false ∧
      ("foo" ∈ HotRunner.run_tests c2Settings [] ↔
        ∃ x ∈ c2Settings.INSTALLED_APPS, x ∉ c2Settings.EXCLUDED_TEST_APPS ∧
          startswith x "django.contrib." = false ∧ leaf x = "foo") :=
  ⟨rfl, c2_amended_fully_qualified_exclusion c2Settings rfl "foo"⟩

/-- C3: with an empty explicit list and the override flag set, the effective
target list is exactly the leaf identifiers of the configured application
list with the `django.contrib.`-prefixed entries removed, in the original
order: the exclusion set is ignored entirely. -/
theorem c3_override_ignores_exclusions (s : Settings)
    (h : s.TEST_ALL_APPS = true) :
    HotRunner.run_tests s [] =
      (s.INSTALLED_APPS.filter
        (fun x => !(startswith x "django.contrib."))).map leaf := by
  simp [HotRunner.run_tests, h]

theorem c3_override_ignores_exclusions_witness :
    HotRunner.run_tests
        ⟨["proj.foo"], true, ["proj.foo", "django.contrib.auth", "bar"], none, none⟩ [] =
      ((["proj.foo", "django.contrib.auth", "bar"] : List String).filter
        (fun x => !(startswith x "django.contrib."))).map leaf :=
  c3_override_ignores_exclusions _ rfl

/-- Helper: delegations distribute over concatenation of effect lists. -/
theorem superCalls_append (a b : List Effect) :
    superCalls (a ++ b) = superCalls a ++ superCalls b := by
  simp [superCalls]

/-- Helper: a singleton delegation effect. -/
theorem superCalls_callSuper (c : SuperCall) :
    superCalls [Effect.callSuper c] = [c] := rfl

/-- Helper: once `case_time_taken` has been assigned,
`_make_testcase_element` succeeds and performs no delegation. -/
theorem make_testcase_element_spec (st : ResultState) (test : Test) (tt : Int)
    (h : st.case_time_taken = some tt) :
    ∃ fx, HotRunnerTestResult.make_testcase_element st test = Except.ok fx ∧
      superCalls fx = [] := by
  unfold HotRunnerTestResult.make_testcase_element
  rw [h]
  split
  · exact ⟨[], rfl, rfl⟩
  · split
    · exact ⟨[], rfl, rfl⟩
    · exact ⟨_, rfl, by simp [superCalls]⟩

/-- Helper: `_add_tb_to_test` performs no delegation. -/
theorem add_tb_to_test_no_super (st : ResultState) (test : Test) (err : ExcInfo) :
    superCalls (HotRunnerTestResult.add_tb_to_test st test err) = [] := by
  unfold HotRunnerTestResult.add_tb_to_test
  split
  · rfl
  · split
    · rfl
    · simp [superCalls]

/-- C4: once a test has been started (`case_start_time` assigned), every
terminal per-test callback delegates to the corresponding underlying
protocol handler exactly once, with the arguments it itself received —
for every state, so in particular regardless of whether a report
destination is configured. -/
theorem c4_unconditional_delegation (st : ResultState) (now t : Int)
    (test : Test) (err : ExcInfo) (reason : String)
    (h : st.case_start_time = some t) :
    superCallsOf (HotRunnerTestResult.addSuccess st now test) =
        [SuperCall.addSuccess test] ∧
      superCallsOf (HotRunnerTestResult.addFailure st now test err) =
        [SuperCall.addFailure test err] ∧
      superCallsOf (HotRunnerTestResult.addError st now test err) =
        [SuperCall.addError test err] ∧
      superCallsOf (HotRunnerTestResult.addSkip st now test reason) =
        [SuperCall.addSkip test reason] ∧
      superCallsOf (HotRunnerTestResult.addExpectedFailure st now test err) =
        [SuperCall.addExpectedFailure test err] ∧
      superCallsOf (HotRunnerTestResult.addUnexpectedSuccess st now test) =
        [SuperCall.addUnexpectedSuccess test] := by
  obtain ⟨se, de, cst, ctt, rst, er, fa, sk, tr⟩ := st
  cases h
  obtain ⟨fx, hfx, hsc⟩ :=
    make_testcase_element_spec ⟨se, de, some t, some (now - t), rst, er, fa, sk, tr⟩ test
      (now - t) rfl
  refine ⟨?_, ?_, ?_, ?_, ?_, ?_⟩
  · by_cases hx :
        truthy (HotRunnerTestResult.xunit_filename ⟨se, de, some t, some (now - t), rst, er, fa, sk, tr⟩)
    · simp [HotRunnerTestResult.addSuccess, hx, hfx, superCallsOf, superCalls_append,
        superCalls_callSuper, hsc]
    · simp [HotRunnerTestResult.addSuccess, hx, superCallsOf, superCalls]
  · by_cases hx :
        truthy (HotRunnerTestResult.xunit_filename ⟨se, de, some t, some (now - t), rst, er, fa, sk, tr⟩)
    · simp [HotRunnerTestResult.addFailure, hx, hfx, Except.map, superCallsOf, superCalls_append,
        superCalls_callSuper, hsc, add_tb_to_test_no_super]
    · simp [HotRunnerTestResult.addFailure, hx, superCallsOf, superCalls]
  · by_cases hx :
        truthy (HotRunnerTestResult.xunit_filename ⟨se, de, some t, some (now - t), rst, er, fa, sk, tr⟩)
    · simp [HotRunnerTestResult.addError, hx, hfx, Except.map, superCallsOf, superCalls_append,
        superCalls_callSuper, hsc, add_tb_to_test_no_super]
    · simp [HotRunnerTestResult.addError, hx, superCallsOf, superCalls]
  · by_cases hx :
        truthy (HotRunnerTestResult.xunit_filename ⟨se, de, some t, some (now - t), rst, er, fa, sk, tr⟩)
    · simp [HotRunnerTestResult.addSkip, hx, hfx, superCallsOf, superCalls_append,
        superCalls_callSuper, hsc]
    · simp [HotRunnerTestResult.addSkip, hx, superCallsOf, superCalls]
  · by_cases hx :
        truthy (HotRunnerTestResult.xunit_filename ⟨se, de, some t, some (now - t), rst, er, fa, sk, tr⟩)
    · simp [HotRunnerTestResult.addExpectedFailure, hx, hfx, Except.map, superCallsOf,
        superCalls_append, superCalls_callSuper, hsc, add_tb_to_test_no_super]
    · simp [HotRunnerTestResult.addExpectedFailure, hx, superCallsOf, superCalls]
  · by_cases hx :
        truthy (HotRunnerTestResult.xunit_filename ⟨se, de, some t, some (now - t), rst, er, fa, sk, tr⟩)
    · simp [HotRunnerTestResult.addUnexpectedSuccess, hx, hfx, superCallsOf, superCalls_append,
        superCalls_callSuper, hsc]
    · simp [HotRunnerTestResult.addUnexpectedSuccess, hx, superCallsOf, superCalls]

theorem c4_unconditional_delegation_witness :
    superCallsOf (HotRunnerTestResult.addSuccess runningState 5 sampleTest) =
        [SuperCall.addSuccess sampleTest] ∧
      superCallsOf (HotRunnerTestResult.addFailure runningState 5 sampleTest sampleErr) =
        [SuperCall.addFailure sampleTest sampleErr] ∧
      superCallsOf (HotRunnerTestResult.addError runningState 5 sampleTest sampleErr) =
        [SuperCall.addError sampleTest sampleErr] ∧
      superCallsOf (HotRunnerTestResult.addSkip runningState 5 sampleTest "why") =
        [SuperCall.addSkip sampleTest "why"] ∧
      superCallsOf (HotRunnerTestResult.addExpectedFailure runningState 5 sampleTest sampleErr) =
        [SuperCall.addExpectedFailure sampleTest sampleErr] ∧
      superCallsOf (HotRunnerTestResult.addUnexpectedSuccess runningState 5 sampleTest) =
        [SuperCall.addUnexpectedSuccess sampleTest] :=
  c4_unconditional_delegation runningState 5 0 sampleTest sampleErr "why" rfl

/-- C5: when no report destination is configured, no lifecycle callback —
run start, any of the six terminal per-test callbacks, or run stop —
performs any file-system effect (no open, no write): only the delegation
to the inherited behavior remains. -/
theorem c5_no_report_no_file_ops (st : ResultState)
    (h : HotRunnerTestResult.xunit_filename st = none)
    (now : Int) (test : Test) (err : ExcInfo) (reason : String) :
    fileEffectsOf (HotRunnerTestResult.startTestRun st now) = [] ∧
      fileEffectsOf (HotRunnerTestResult.addSuccess st now test) = [] ∧
      fileEffectsOf (HotRunnerTestResult.addFailure st now test err) = [] ∧
      fileEffectsOf (HotRunnerTestResult.addError st now test err) = [] ∧
      fileEffectsOf (HotRunnerTestResult.addSkip st now test reason) = [] ∧
      fileEffectsOf (HotRunnerTestResult.addExpectedFailure st now test err) = [] ∧
      fileEffectsOf (HotRunnerTestResult.addUnexpectedSuccess st now test) = [] ∧
      fileEffectsOf (HotRunnerTestResult.stopTestRun st now) = [] := by
  have h' : pyOr st.settings.HOTRUNNER_XUNIT_FILENAME st.settings.JUXD_FILENAME = none := h
  refine ⟨?_, ?_, ?_, ?_, ?_, ?_, ?_, ?_⟩
  · simp [HotRunnerTestResult.startTestRun, HotRunnerTestResult.xunit_filename, h', truthy,
      fileEffectsOf, fileEffects]
  · cases hcs : st.case_start_time <;>
      simp [hcs, HotRunnerTestResult.addSuccess, HotRunnerTestResult.xunit_filename, h', truthy,
        fileEffectsOf, fileEffects]
  · cases hcs : st.case_start_time <;>
      simp [hcs, HotRunnerTestResult.addFailure, HotRunnerTestResult.xunit_filename, h', truthy,
        fileEffectsOf, fileEffects]
  · cases hcs : st.case_start_time <;>
      simp [hcs, HotRunnerTestResult.addError, HotRunnerTestResult.xunit_filename, h', truthy,
        fileEffectsOf, fileEffects]
  · cases hcs : st.case_start_time <;>
      simp [hcs, HotRunnerTestResult.addSkip, HotRunnerTestResult.xunit_filename, h', truthy,
        fileEffectsOf, fileEffects]
  · cases hcs : st.case_start_time <;>
      simp [hcs, HotRunnerTestResult.addExpectedFailure, HotRunnerTestResult.xunit_filename, h', truthy,
        fileEffectsOf, fileEffects]
  · cases hcs : st.case_start_time <;>
      simp [hcs, HotRunnerTestResult.addUnexpectedSuccess, HotRunnerTestResult.xunit_filename, h', truthy,
        fileEffectsOf, fileEffects]
  · cases hrs : st.run_start_time <;>
      simp [hrs, HotRunnerTestResult.stopTestRun, HotRunnerTestResult.xunit_filename, h', truthy,
        fileEffectsOf, fileEffects]

theorem c5_no_report_no_file_ops_witness :
    fileEffectsOf (HotRunnerTestResult.startTestRun noReportRunningState 5) = [] ∧
      fileEffectsOf (HotRunnerTestResult.addSuccess noReportRunningState 5 sampleTest) = [] ∧
      fileEffectsOf (HotRunnerTestResult.addFailure noReportRunningState 5 sampleTest sampleErr) = [] ∧
      fileEffectsOf (HotRunnerTestResult.addError noReportRunningState 5 sampleTest sampleErr) = [] ∧
      fileEffectsOf (HotRunnerTestResult.addSkip noReportRunningState 5 sampleTest "why") = [] ∧
      fileEffectsOf (HotRunnerTestResult.addExpectedFailure noReportRunningState 5 sampleTest sampleErr) = [] ∧
      fileEffectsOf (HotRunnerTestResult.addUnexpectedSuccess noReportRunningState 5 sampleTest) = [] ∧
      fileEffectsOf (HotRunnerTestResult.stopTestRun noReportRunningState 5) = [] :=
  c5_no_report_no_file_ops noReportRunningState rfl 5 sampleTest sampleErr "why"

/-- C6: evaluation of `stopTestRun` at the run-stop state of a run with
exactly one failing and one passing test and a configured report path.
The summary does contain the total test count (`tests: 2`) and the elapsed
time, but for errors, failures and skips it interpolates the aggregate
LISTS (their Python `repr`), not their counts: the artifact carries
`errors: []` and the full failures list, and no `failures: 1` or
`errors: 0` line ever appears, contradicting the claim. -/
theorem c6_summary_has_list_reprs_not_counts :
    ("<li>failures: [(test_two (app.tests.CaseB), AssertionError traceback)]</li>" ∈
        writesOf (HotRunnerTestResult.stopTestRun c6State 7)) ∧
      ("<li>errors: []</li>" ∈ writesOf (HotRunnerTestResult.stopTestRun c6State 7)) ∧
      ("<li>tests: 2</li>" ∈ writesOf (HotRunnerTestResult.stopTestRun c6State 7)) ∧
      ("<li>time: 7</li>" ∈ writesOf (HotRunnerTestResult.stopTestRun c6State 7)) ∧
      ¬ ("<li>failures: 1</li>" ∈ writesOf (HotRunnerTestResult.stopTestRun c6State 7)) ∧
      ¬ ("<li>errors: 0</li>" ∈ writesOf (HotRunnerTestResult.stopTestRun c6State 7)) := by
  refine ⟨?_, ?_, ?_, ?_, ?_, ?_⟩ <;> decide

/-- C7 counterexample: with the first setting present (with the empty
value) and the second setting naming a file, the resolved destination is
the second setting's value, not the first's: presence alone does not make
the first setting win, its value must also be truthy. -/
theorem c7_counterexample :
    c7State.settings.HOTRUNNER_XUNIT_FILENAME = some "" ∧
      HotRunnerTestResult.xunit_filename c7State ≠ some "" ∧
      HotRunnerTestResult.xunit_filename c7State = some "fallback.html" := by
  refine ⟨rfl, ?_, rfl⟩
  decide

/-- C7 amended: the first legacy setting wins whenever it is present with
a truthy (non-`None`, non-empty) value; whenever the first setting is
falsy (absent, `None`, or the empty string) the second setting's value is
the destination. -/
theorem c7_amended_truthy_first_wins (st : ResultState) :
    (∀ v, st.settings.HOTRUNNER_XUNIT_FILENAME = some v → v ≠ "" →
        HotRunnerTestResult.xunit_filename st = some v) ∧
      (truthy st.settings.HOTRUNNER_XUNIT_FILENAME = false →
        HotRunnerTestResult.xunit_filename st = st.settings.JUXD_FILENAME) := by
  constructor
  · intro v hv hne
    simp [HotRunnerTestResult.xunit_filename, pyOr, truthy, hv, hne]
  · intro hf
    simp [HotRunnerTestResult.xunit_filename, pyOr, hf]

theorem c7_amended_truthy_first_wins_witness :
    HotRunnerTestResult.xunit_filename c7StateA = some "a.html" :=
  (c7_amended_truthy_first_wins c7StateA).1 "a.html" rfl (by decide)

/-- C8 counterexample: on a test whose four word tokens are pairwise
distinct, the code formats the description with the SECOND token as the
app context (`test[1]`), while the claim reads the app/suite context from
the first and last tokens; the two formats disagree. -/
theorem c8_counterexample :
    HotRunnerTestResult.getDescription idleState c8Test =
        some "test_one (alpha.CaseB.test_one)" ∧
      HotRunnerTestResult.getDescriptionClaim idleState c8Test =
        some "test_one (test_one.CaseB.test_one)" ∧
      HotRunnerTestResult.getDescription idleState c8Test ≠
        HotRunnerTestResult.getDescriptionClaim idleState c8Test := by
  refine ⟨?_, ?_, ?_⟩ <;> decide

/-- C8 amended: when descriptions are disabled or the test provides no
(truthy) short description, the fallback formats
`name (app.suite.name)` with the test name taken from the FIRST word token
of `str(test)`, the app context from the SECOND token and the suite
context from the LAST token. -/
theorem c8_amended_second_token_app (st : ResultState) (test : Test)
    (hbranch : (st.descriptions && truthy test.shortDescription) = false)
    (t0 t1 tl : String)
    (h0 : (findall_word test.strRepr)[0]? = some t0)
    (h1 : (findall_word test.strRepr)[1]? = some t1)
    (hl : (findall_word test.strRepr).getLast? = some tl) :
    HotRunnerTestResult.getDescription st test =
      some (t0 ++ " (" ++ t1 ++ "." ++ tl ++ "." ++ t0 ++ ")") := by
  unfold HotRunnerTestResult.getDescription
  simp [hbranch, h0, h1, hl]

theorem c8_amended_second_token_app_witness :
    HotRunnerTestResult.getDescription idleState c8Test =
      some ("test_one" ++ " (" ++ "alpha" ++ "." ++ "CaseB" ++ "." ++ "test_one" ++ ")") :=
  c8_amended_second_token_app idleState c8Test rfl "test_one" "alpha" "CaseB"
    (by decide) (by decide) (by decide)

/-- C9: there is a test object (and result state) whose string
representation yields fewer than two word tokens, on which the fallback
branch of `getDescription` indexes the token list out of range and so
produces no well-defined string (modelled as `none`, Python's
`IndexError`). -/
theorem c9_fallback_out_of_domain :
    ∃ (st : ResultState) (test : Test),
      (findall_word test.strRepr).length < 2 ∧
        HotRunnerTestResult.getDescription st test = none := by
  exact ⟨idleState, c9Test, by decide, by decide⟩

/-- C10: on a result object on which `startTest` was never invoked
(`case_start_time` never assigned), every terminal per-test callback
raises `AttributeError` while computing the elapsed time, whatever the
report configuration. -/
theorem c10_terminal_callbacks_require_startTest (st : ResultState)
    (h : st.case_start_time = none)
    (now : Int) (test : Test) (err : ExcInfo) (reason : String) :
    HotRunnerTestResult.addSuccess st now test = Except.error PyErr.attributeError ∧
      HotRunnerTestResult.addFailure st now test err = Except.error PyErr.attributeError ∧
      HotRunnerTestResult.addError st now test err = Except.error PyErr.attributeError ∧
      HotRunnerTestResult.addSkip st now test reason = Except.error PyErr.attributeError ∧
      HotRunnerTestResult.addExpectedFailure st now test err = Except.error PyErr.attributeError ∧
      HotRunnerTestResult.addUnexpectedSuccess st now test = Except.error PyErr.attributeError := by
  refine ⟨?_, ?_, ?_, ?_, ?_, ?_⟩ <;>
    simp [HotRunnerTestResult.addSuccess, HotRunnerTestResult.addFailure,
      HotRunnerTestResult.addError, HotRunnerTestResult.addSkip,
      HotRunnerTestResult.addExpectedFailure, HotRunnerTestResult.addUnexpectedSuccess, h]

theorem c10_terminal_callbacks_require_startTest_witness :
    HotRunnerTestResult.addSuccess idleState 5 sampleTest = Except.error PyErr.attributeError ∧
      HotRunnerTestResult.addFailure idleState 5 sampleTest sampleErr = Except.error PyErr.attributeError ∧
      HotRunnerTestResult.addError idleState 5 sampleTest sampleErr = Except.error PyErr.attributeError ∧
      HotRunnerTestResult.addSkip idleState 5 sampleTest "why" = Except.error PyErr.attributeError ∧
      HotRunnerTestResult.addExpectedFailure idleState 5 sampleTest sampleErr = Except.error PyErr.attributeError ∧
      HotRunnerTestResult.addUnexpectedSuccess idleState 5 sampleTest = Except.error PyErr.attributeError :=
  c10_terminal_callbacks_require_startTest idleState rfl 5 sampleTest sampleErr "why"
